import Mathlib

/-!
Verification of the OBForceField repository's minimizer and UFF force-field
setup/energy routines against its natural-language specification.

The development shallowly embeds the relevant C++ source:

* `src/src/obminimize.cpp` — the two line searches (`OBMinimize::LineSearch`,
  `OBMinimize::Newton2NumLineSearch`) and the conjugate-gradient direction
  update of `OBMinimize::ConjugateGradientsTakeNSteps`.  These routines treat
  the energy function as a black box, so they are embedded over an arbitrary
  energy function `E : List Vec3q → ℚ` with exact rational arithmetic (every
  rational value is finite, so the source's `isfinite` guards are always
  satisfied and the guarded branch is the one embedded).
* `src/unnamed/part_002` (`forcefielduff.cpp`) — parameter lookup, the
  calculation-list construction of `SetupCalculations` / `SetupElectrostatics`,
  and the energy terms `E_Bond` … `E_Electrostatic` and their aggregation in
  `OBForceFieldUFF::Energy`.  List construction is embedded computably over ℚ;
  the trigonometric energy formulas are embedded over ℝ.
* `src/src/forcefields/mmff94/electro_opencl.cpp` — `electroEnergy`,
  `ComputeSelfEnergy` and `ComputeTotalEnergy`.  The C++ `electroEnergy` is
  declared to return `double` but no path of its body executes a `return`
  statement, so a call yields an unspecified value; the embedding renders an
  unspecified `double` as `none : Option ℝ`.

Geometry helpers (`VectorAngle`, `VectorOOP`, the `*Derivative` routines) live
in `src/vectormath.cpp`, which is not among the provided sources; they are kept
abstract as `Option ℝ`-valued parameters, `none` standing for a non-finite
(NaN/infinite) result of the floating-point computation.
-/

/-! ## Rational 3-vectors (positions, gradients, directions of the minimizer) -/

/-- A 3-D vector over ℚ, standing for `Eigen::Vector3d` in exact arithmetic. -/
abbrev Vec3q := ℚ × ℚ × ℚ

/-- Componentwise vector addition. -/
def qadd (u v : Vec3q) : Vec3q := (u.1 + v.1, u.2.1 + v.2.1, u.2.2 + v.2.2)

/-- Scalar multiplication. -/
def qsmul (s : ℚ) (v : Vec3q) : Vec3q := (s * v.1, s * v.2.1, s * v.2.2)

/-- Dot product. -/
def qdot (u v : Vec3q) : ℚ := u.1 * v.1 + u.2.1 * v.2.1 + u.2.2 * v.2.2

/-- `Eigen::Vector3d::squaredNorm()`. -/
def sqNormQ (v : Vec3q) : ℚ := qdot v v

/-- An exact rational square root, used only where the source takes
`sqrt`/`norm()`: it agrees with the real square root whenever the argument is
the square of a rational (numerator and denominator of the reduced fraction
both perfect squares), which covers every concrete evaluation performed in
this file; no theorem below depends on its value elsewhere. -/
def ratSqrt (q : ℚ) : ℚ := (Nat.sqrt q.num.toNat : ℚ) / (Nat.sqrt q.den : ℚ)

/-! ## `OBMinimize::LineSearch` (the simple trust-region search) -/

/-- One trial displacement of the whole system inside `OBMinimize::LineSearch`
(obminimize.cpp lines 203–215): per atom, `tempStep = direction[c] * step`;
a step whose squared norm exceeds `trustRadius2 = 0.9` is renormalized and
scaled to `trustRadius = 0.3`; the result is added to the coordinates.  The
source's `isfinite(direction[c].squaredNorm())` guard always holds over ℚ.
Positions beyond `direction.size()` are left untouched, as in the source. -/
def lineSearchStep (dir : List Vec3q) (step : ℚ) (coords : List Vec3q) : List Vec3q :=
  (List.zipWith (fun x v =>
      let tempStep := qsmul step v
      if (9 : ℚ) / 10 < sqNormQ tempStep then
        qadd x (qsmul ((3 : ℚ) / 10 / ratSqrt (sqNormQ tempStep)) tempStep)
      else
        qadd x tempStep) coords dir) ++ coords.drop dir.length

/-- The trial loop of `OBMinimize::LineSearch` (obminimize.cpp lines 197–237),
with the loop bound `i < 10` as structural fuel.  State: current coordinates,
`e_n1` (energy of the current coordinates), `step`, `alpha`.  The loop body:
take a trial step, evaluate `e_n2`; if `IsNear(e_n2, e_n1, 1.0e-3)` break
(leaving the trial coordinates in place); if `e_n2 > e_n1` revert to the saved
coordinates and shrink the step by 0.1; if `e_n2 < e_n1` accept, add `step` to
`alpha`, grow the step by 2.15 capped at 1.0.  (The remaining case
`e_n2 = e_n1` is unreachable: `IsNear` already caught it; the source then
leaves the moved coordinates and `e_n1` unchanged, embedded likewise.) -/
def lineSearchLoop (E : List Vec3q → ℚ) (dir : List Vec3q) :
    ℕ → List Vec3q → ℚ → ℚ → ℚ → List Vec3q × ℚ
  | 0, coords, _, _, alpha => (coords, alpha)
  | Nat.succ n, coords, e1, step, alpha =>
    let c2 := lineSearchStep dir step coords
    let e2 := E c2
    if |e2 - e1| < 1 / 1000 then (c2, alpha)
    else if e1 < e2 then
      lineSearchLoop E dir n coords e1 (step * (1 / 10)) alpha
    else if e2 < e1 then
      let grown := step * (43 / 20)
      lineSearchLoop E dir n c2 e2 (if 1 < grown then 1 else grown) (alpha + step)
    else
      lineSearchLoop E dir n c2 e1 step alpha

/-- `OBMinimize::LineSearch` (obminimize.cpp lines 182–243): computes the
starting energy, runs at most 10 trial iterations starting from `step = 0.2`
and `alpha = 0`, and returns the final coordinates together with `alpha`. -/
def lineSearch (E : List Vec3q → ℚ) (coords dir : List Vec3q) : List Vec3q × ℚ :=
  lineSearchLoop E dir 10 coords (E coords) (1 / 5) 0

/-! ## `OBMinimize::Newton2NumLineSearch` -/

/-- `OBMinimize::LineSearchTakeStep` (obminimize.cpp lines 172–180):
`positions[c] = origCoords[c] + direction[c] * step` for `c` below
`direction.size()`; positions beyond keep their original values. -/
def lineSearchTakeStep (origCoords dir : List Vec3q) (step : ℚ) : List Vec3q :=
  (List.zipWith (fun x v => qadd x (qsmul step v)) origCoords dir) ++
    origCoords.drop dir.length

/-- The `while (true)` refinement loop of `Newton2NumLineSearch` (obminimize.cpp
lines 113–149).  Each pass evaluates the energy at the current trial `step` and
records it in `(optStep, optE)` when it improves; the source's `newton++ > 3`
cut-off allows exactly four refinement phases after the first evaluation, here
the structural fuel.  A refinement phase evaluates at `step + delta` and
`step + 2*delta` with `delta = step * 0.001`, and applies a numerical Newton
update `step := |step - delta*(e2 - e1)/denom|` with
`denom = e3 - 2*e2 + e1`, damped to `max_scl`; `denom == 0` breaks the loop. -/
def newtonRefine (E : List Vec3q → ℚ) (origCoords dir : List Vec3q) (maxScl : ℚ) :
    ℕ → ℚ → ℚ → ℚ → ℚ × ℚ
  | fuel, step, optStep, optE =>
    let e1 := E (lineSearchTakeStep origCoords dir step)
    let opt' := if e1 < optE then (step, e1) else (optStep, optE)
    match fuel with
    | 0 => opt'
    | Nat.succ n =>
      let delta := step * (1 / 1000)
      let e2 := E (lineSearchTakeStep origCoords dir (step + delta))
      let e3 := E (lineSearchTakeStep origCoords dir (step + delta * 2))
      let denom := e3 - 2 * e2 + e1
      if denom = 0 then opt'
      else
        let stepN := |step - delta * (e2 - e1) / denom|
        newtonRefine E origCoords dir maxScl n
          (if maxScl < stepN then maxScl else stepN) opt'.1 opt'.2

/-- The tail of `Newton2NumLineSearch` (obminimize.cpp lines 151–169): when
`opt_step == 0.0` a very small trial step `0.001 * def_step / scale` is tried
once more; finally the optimal step is re-taken from the saved origin and
`opt_step * scale` is returned. -/
def newton2NumFinish (E : List Vec3q → ℚ) (origCoords dir : List Vec3q)
    (scale : ℚ) (opt1 : ℚ × ℚ) : List Vec3q × ℚ :=
  let opt2 :=
    if opt1.1 = 0 then
      let small := (1 / 1000) * (1 / 40) / scale
      let eS := E (lineSearchTakeStep origCoords dir small)
      if eS < opt1.2 then (small, eS) else opt1
    else opt1
  (lineSearchTakeStep origCoords dir opt2.1, opt2.1 * scale)

/-- `OBMinimize::Newton2NumLineSearch` (obminimize.cpp lines 81–170).  `e0` is
`d->e_n1`, the energy the calling minimizer computed at the current positions.
The direction scale is `sqrt` of the summed squared norms (every summand is
finite over ℚ, so the NaN-zeroing branch is never taken), substituted by
`1.0e-70` when `IsNearZero` (|scale| < 2e-10, the OpenBabel default epsilon);
the initial step is `def_step = 0.025` over the scale and the damping bound
`max_step = 5.0` over the scale; the refinement loop starts from
`(opt_step, opt_e) = (0.0, e0)` and `newton2NumFinish` closes the search. -/
def newton2NumLineSearch (E : List Vec3q → ℚ) (origCoords dir : List Vec3q)
    (e0 : ℚ) : List Vec3q × ℚ :=
  let sum := (dir.map sqNormQ).foldl (fun a b => a + b) 0
  let scale0 := ratSqrt sum
  let scale := if |scale0| < 2 / 10 ^ 10 then 1 / 10 ^ 70 else scale0
  newton2NumFinish E origCoords dir scale
    (newtonRefine E origCoords dir (5 / scale) 4 ((1 / 40) / scale) 0 e0)

/-! ## Conjugate-gradient direction update -/

/-- The direction-forming loop of `OBMinimize::ConjugateGradientsTakeNSteps`
(obminimize.cpp lines 393–415).  `g` is the current analytical gradient array,
`prev` the stored array `d->grad1`, `numAtoms` the position count and `cstep`
the cumulative step count (already incremented for this step).  When
`cstep % numAtoms ≠ 0` the Fletcher–Reeves update
`grad2 += (grad2·grad2)/(grad1·grad1) * grad1` is applied per atom; when
`cstep % numAtoms = 0` the direction is reset to the raw gradient. -/
def cgDirection (cstep numAtoms : ℕ) (g prev : List Vec3q) : List Vec3q :=
  List.zipWith (fun grad2 grad1 =>
      if cstep % numAtoms ≠ 0 then
        qadd grad2 (qsmul (qdot grad2 grad2 / qdot grad1 grad1) grad1)
      else
        grad2) g prev

/-! ## Molecular topology

The UFF setup consumes the molecule through OpenBabel's graph interface
(`FOR_BONDS_OF_MOL`, `FOR_ANGLES_OF_MOL`, `FOR_TORSIONS_OF_MOL`,
`FOR_PAIRS_OF_MOL`, `FOR_NBORS_OF_ATOM`, `IsConnected`, `IsOneThree`), an
external collaborator of this repository.  A molecule is embedded as atom
count, per-atom neighbour lists (in bond-insertion order, as the iterators
deliver them), atomic number, force-field type string and partial charge;
atoms are indexed `0 … numAtoms-1`.  No group-restriction masks are modelled
(`HasGroups()` false), matching the claims, which quantify over topologies
without group filters. -/

/-- A molecular graph as the UFF setup reads it. -/
structure Molecule where
  numAtoms : ℕ
  nbrs : ℕ → List ℕ
  atomicNum : ℕ → ℕ
  typeOf : ℕ → String
  charge : ℕ → ℚ

/-- `a->IsConnected(b)`: the atoms share a bond. -/
def isConnected (mol : Molecule) (a b : ℕ) : Bool := (mol.nbrs a).contains b

/-- Modelled from the spec: `OBAtom::IsOneThree` is OpenBabel library code;
the spec's glossary defines 1-3 pairs as atoms separated by two bonds through
a common angle vertex. -/
def isOneThree (mol : Molecule) (a b : ℕ) : Bool :=
  (mol.nbrs a).any (fun k => (mol.nbrs k).contains b)

/-- Modelled from the spec: `OBAtom::IsOneFour` is OpenBabel library code; the
spec's glossary defines 1-4 pairs as atoms separated by three bonds (a torsion
path). -/
def isOneFour (mol : Molecule) (a b : ℕ) : Bool :=
  (mol.nbrs a).any (fun k => isOneThree mol k b)

/-- `FOR_BONDS_OF_MOL`: every bond once, as the index pair (a, b) with a < b. -/
def bondsOf (mol : Molecule) : List (ℕ × ℕ) :=
  (List.range mol.numAtoms).flatMap (fun a =>
    ((mol.nbrs a).filter (fun b => a < b)).map (fun b => (a, b)))

/-- `FOR_ANGLES_OF_MOL`: every bonded triple (a, b, c) with vertex b, the two
wings being distinct neighbours of b, each unordered wing pair once. -/
def anglesOf (mol : Molecule) : List (ℕ × ℕ × ℕ) :=
  (List.range mol.numAtoms).flatMap (fun b =>
    (mol.nbrs b).flatMap (fun a =>
      (((mol.nbrs b).filter (fun c => a < c)).map (fun c => (a, b, c)))))

/-- `FOR_TORSIONS_OF_MOL`: every four-atom path a-b-c-d along three bonds,
one per direction of each central bond (a, b) of `bondsOf`. -/
def torsionsOf (mol : Molecule) : List (ℕ × ℕ × ℕ × ℕ) :=
  (bondsOf mol).flatMap (fun p =>
    (((mol.nbrs p.1).filter (fun a => a != p.2)).flatMap (fun a =>
      (((mol.nbrs p.2).filter (fun d => d != p.1)).map (fun d =>
        (a, p.1, p.2, d))))))

/-- `FOR_PAIRS_OF_MOL`: every unordered atom pair (a, b), a < b. -/
def pairsOf (mol : Molecule) : List (ℕ × ℕ) :=
  (List.range mol.numAtoms).flatMap (fun a =>
    (((List.range mol.numAtoms).filter (fun b => a < b)).map (fun b => (a, b))))

/-! ## Parameter lookup (`OBForceFieldUFF::GetParameterUFF`) -/

/-- `OBFFParameter`: the atom-type key `_a`, the numeric row `_dpar` and the
integer row `_ipar` (the coordination code at `_ipar[0]`). -/
structure OBFFParameter where
  a : String
  dpar : List ℚ
  ipar : List ℤ

/-- `OBForceFieldUFF::GetParameterUFF` (forcefielduff.cpp lines 1227–1235):
scan the parameter vector for the row whose `_a` equals the atom type; the
source returns a null pointer, here `none`, when no row matches. -/
def getParameterUFF (a : String) (parameter : List OBFFParameter) :
    Option OBFFParameter :=
  parameter.find? (fun p => p.a == a)

/-- The chain of parameter lookups a setup pass performs, one type string per
lookup in source order.  A `none` from `getParameterUFF` is a null pointer
that `SetupCalculations` immediately dereferences (`CalculateBondDistance`,
`parameterB->_ipar[0]`, …): undefined behaviour, embedded as `none`. -/
def lookupAll (parameter : List OBFFParameter) : List String → Option Unit
  | [] => some ()
  | t :: ts =>
    match getParameterUFF t parameter with
    | none => none
    | some _ => lookupAll parameter ts

/-! ## `OBForceFieldUFF::SetupCalculations`: out-of-plane records -/

/-- The element switch opening the OOP loop (forcefielduff.cpp lines 795–806):
only C, N, O, P, As, Sb, Bi centers can carry an inversion term. -/
def oopElementOk (z : ℕ) : Bool :=
  z = 6 || z = 7 || z = 8 || z = 15 || z = 33 || z = 51 || z = 83

/-- `EQn(s, t, n)`: the first n characters agree. -/
def eqn (s t : String) (n : ℕ) : Bool := s.take n == t.take n

/-- The N/O type whitelist of the OOP setup (lines 812–816). -/
def oopTypeNO (t : String) : Bool :=
  eqn t "N_3" 3 || eqn t "N_2" 3 || eqn t "N_R" 3 || eqn t "O_2" 3 || eqn t "O_R" 3

/-- The pnictogen type whitelist of the OOP setup (lines 822–825). -/
def oopTypePnictogen (t : String) : Bool :=
  eqn t "P_3+3" 5 || eqn t "As3+3" 5 || eqn t "Sb3+3" 5 || eqn t "Bi3+3" 5

/-- The sp2-carbon types admitted by the final branch (line 841). -/
def oopTypeC2R (t : String) : Bool := eqn t "C_2" 3 || eqn t "C_R" 3

/-- A center contributes OOP records when its element passes the switch and
its type falls in one of the three whitelisted families; any other type hits
a `continue` (lines 795–842). -/
def oopEligible (mol : Molecule) (b : ℕ) : Bool :=
  oopElementOk (mol.atomicNum b) &&
    (oopTypeNO (mol.typeOf b) || oopTypePnictogen (mol.typeOf b) ||
      oopTypeC2R (mol.typeOf b))

/-- One pass of the neighbour-collection loop (lines 845–852): `a` receives
the first neighbour, `c` the second, and `d` is assigned by every later
neighbour. -/
def pickACDStep (acc : Option ℕ × Option ℕ × Option ℕ) (n : ℕ) :
    Option ℕ × Option ℕ × Option ℕ :=
  match acc with
  | (none, c, d) => (some n, c, d)
  | (some a, none, d) => (some a, some n, d)
  | (some a, some c, _) => (some a, some c, some n)

/-- The neighbour-collection loop over `FOR_NBORS_OF_ATOM` (lines 845–852):
after the fold, `d` holds the last neighbour (when there are at least
three). -/
def pickACD (nbrs : List ℕ) : Option ℕ × Option ℕ × Option ℕ :=
  nbrs.foldl pickACDStep (none, none, none)

/-- The OOP records one center generates (lines 808–902): after the
whitelist, collect a, c, d; a center where one of them is still null is
skipped; otherwise three records are pushed, one per choice of the wing atom:
planes a-b-c (wing d), b-c-d (wing a), a-b-d (wing c).  The records' numeric
constants (`c0, c1, c2, koop`), being irrelevant to the list structure, are
carried by the separate energy layer below. -/
def oopQuadsForCenter (mol : Molecule) (b : ℕ) : List (ℕ × ℕ × ℕ × ℕ) :=
  if oopEligible mol b then
    match pickACD (mol.nbrs b) with
    | (some a, some c, some d) => [(a, b, c, d), (d, b, c, a), (a, b, d, c)]
    | _ => []
  else []

/-- `_oopcalculations` as atom-index quadruples: the OOP block of
`SetupCalculations` over all atoms. -/
def oopCalculations (mol : Molecule) : List (ℕ × ℕ × ℕ × ℕ) :=
  (List.range mol.numAtoms).flatMap (oopQuadsForCenter mol)

/-! ## `SetupCalculations`: van der Waals pairs, and the setup's return value -/

/-- The VDW pair filter (lines 914–942): every `FOR_PAIRS_OF_MOL` pair except
directly bonded (`IsConnected`) and 1-3 (`IsOneThree`) pairs.  The pushed
records' constants (`kab`, `ka`) involve square roots and are carried by the
energy layer; the pair list itself is what the exclusion claims concern. -/
def vdwPairs (mol : Molecule) : List (ℕ × ℕ) :=
  (pairsOf mol).filter (fun p =>
    !(isConnected mol p.1 p.2) && !(isOneThree mol p.1 p.2))

/-- `KCAL_TO_KJ` (openbabel/babelconfig.h): 4.1868. -/
def KCAL_TO_KJq : ℚ := 41868 / 10000

/-- An `OBFFElectrostaticCalculationUFF` record: the atom pair and the
precomputed `qq = KCAL_TO_KJ * 332.0637 * qa * qb`. -/
structure EleCalcUFF where
  a : ℕ
  b : ℕ
  qq : ℚ

/-- `OBForceFieldUFF::SetupElectrostatics` (forcefielduff.cpp lines 976–1039):
every pair except bonded and 1-3, and only when the precomputed `qq` is
nonzero (`if (elecalc.qq)`). -/
def setupElectrostatics (mol : Molecule) : List EleCalcUFF :=
  (pairsOf mol).filterMap (fun p =>
    if !(isConnected mol p.1 p.2) && !(isOneThree mol p.1 p.2) then
      let qq := KCAL_TO_KJq * (3320637 / 10000) * mol.charge p.1 * mol.charge p.2
      if qq ≠ 0 then some ⟨p.1, p.2, qq⟩ else none
    else none)

/-- The observable return behaviour of `OBForceFieldUFF::SetupCalculations`
(lines 509–974).  The body performs `GetParameterUFF` lookups for the two
atoms of every bond, the three atoms of every angle, the two central atoms of
every torsion and the two atoms of every retained VDW pair, and dereferences
each result without a null check; a missing parameter is therefore undefined
behaviour (`none`).  The function's only return statement is the final
`return true`: no path returns `false`. -/
def setupStatusOf (lookups : Option Unit) : Option Bool :=
  match lookups with
  | none => none
  | some _ => some true

/-- `SetupCalculations`' return value as a function of the molecule and the
parameter table: `setupStatusOf` applied to the chain of lookups the body
performs, in source order. -/
def setupCalculationsStatus (mol : Molecule) (parameter : List OBFFParameter) :
    Option Bool :=
  let bondTypes := (bondsOf mol).flatMap (fun p => [mol.typeOf p.1, mol.typeOf p.2])
  let angleTypes := (anglesOf mol).flatMap (fun t =>
    [mol.typeOf t.1, mol.typeOf t.2.1, mol.typeOf t.2.2])
  let torsionTypes := (torsionsOf mol).flatMap (fun t =>
    [mol.typeOf t.2.1, mol.typeOf t.2.2.1])
  let vdwTypes := (vdwPairs mol).flatMap (fun p => [mol.typeOf p.1, mol.typeOf p.2])
  setupStatusOf
    (lookupAll parameter (bondTypes ++ angleTypes ++ torsionTypes ++ vdwTypes))

/-! ## Real 3-vectors and geometry (the energy formulas) -/

/-- A 3-D vector over ℝ (`Eigen::Vector3d` in the energy formulas). -/
abbrev V3 := ℝ × ℝ × ℝ

/-- Componentwise difference. -/
def rsub (u v : V3) : V3 := (u.1 - v.1, u.2.1 - v.2.1, u.2.2 - v.2.2)

/-- Dot product. -/
def rdot (u v : V3) : ℝ := u.1 * v.1 + u.2.1 * v.2.1 + u.2.2 * v.2.2

/-- Cross product. -/
def rcross (u v : V3) : V3 :=
  (u.2.1 * v.2.2 - u.2.2 * v.2.1,
   u.2.2 * v.1 - u.1 * v.2.2,
   u.1 * v.2.1 - u.2.1 * v.1)

/-- `Eigen::Vector3d::norm()`. -/
noncomputable def rnorm (u : V3) : ℝ := Real.sqrt (rdot u u)

/-- `DEG_TO_RAD` (openbabel macro): π / 180. -/
noncomputable def DEG_TO_RAD : ℝ := Real.pi / 180

/-- `KCAL_TO_KJ` over ℝ. -/
noncomputable def KCAL_TO_KJ : ℝ := (KCAL_TO_KJq : ℝ)

/-- `IsNearZero(x, eps)` (openbabel obutil.h): |x| < eps; the default epsilon
is 2e-10. -/
def isNearZeroR (x eps : ℝ) : Prop := |x| < eps

/-! ## Torsion record construction (`SetupCalculations`, lines 652–778)

`uffTorsionParams` embeds the per-torsion decision table keyed on the
coordination codes `_ipar[0]` of the two central atoms, with the group-6
(chalcogen) overrides keyed on their atomic numbers.  Inputs: the two
coordination codes, atomic numbers, the sp3 barrier heights `_dpar[6]`, the
sp2 barriers `_dpar[7]` and the central bond's effective order
(`torsiontype`).  A near-zero barrier (`IsNearZero(V)`, default epsilon) drops
the record (`continue`), as does a coordination pair no branch covers (there
the C++ leaves `torsioncalc.V` at its value from the previous loop iteration —
a latent staleness no claim touches, embedded as `none`). -/

/-- A torsion record's precomputed constants: `V`, `n`, the intermediate
`phi0` (degrees) and `cosNPhi0 = cos(n * DEG_TO_RAD * phi0)`. -/
structure TorsionParamsUFF where
  V : ℝ
  n : ℕ
  phi0 : ℚ
  cosNPhi0 : ℝ

/-- The group-6 sp3 override for one central atom (lines 701–728): atomic
number 8 forces barrier 2.0, n = 2, phi0 = 90; atomic numbers 16/34/52/84
force barrier 6.8, n = 2, phi0 = 90; anything else keeps the incoming
values. -/
def sp3Group6Override (z : ℕ) (v : ℚ) (n : ℕ) (phi0 : ℚ) : ℚ × ℕ × ℚ :=
  if z = 8 then (2, 2, 90)
  else if z = 16 ∨ z = 34 ∨ z = 52 ∨ z = 84 then (68 / 10, 2, 90)
  else (v, n, phi0)

open Classical in
/-- The torsion decision table (lines 693–777), producing the record a
`FOR_TORSIONS_OF_MOL` entry contributes, or `none` when it is dropped. -/
noncomputable def uffTorsionParams (coordB coordC : ℤ) (zB zC : ℕ)
    (viB vjC uB uC torsiontype : ℚ) : Option TorsionParamsUFF :=
  let branch : Option (ℝ × ℕ × ℚ) :=
    if coordB = 3 ∧ coordC = 3 then
      -- two sp3 centers: phi0 = 60, n = 3, V from the geometric-mean barrier
      let o1 := sp3Group6Override zB viB 3 60
      let o2 := sp3Group6Override zC vjC o1.2.1 o1.2.2
      let vi := o1.1
      let vj := o2.1
      some ((1 / 2 : ℝ) * KCAL_TO_KJ * Real.sqrt ((vi : ℝ) * (vj : ℝ)), o2.2.1, o2.2.2)
    else if coordB = 2 ∧ coordC = 2 then
      -- two sp2 centers
      some ((1 / 2 : ℝ) * KCAL_TO_KJ * 5 * Real.sqrt ((uB : ℝ) * (uC : ℝ)) *
        (1 + (418 / 100) * Real.log (torsiontype : ℝ)), 2, 180)
    else if (coordB = 2 ∧ coordC = 3) ∨ (coordB = 3 ∧ coordC = 2) then
      -- one sp3, one sp2, with the group-6 sp3 override on n and phi0
      let base : ℕ × ℚ := (6, 0)
      let afterC : ℕ × ℚ :=
        if coordC = 3 ∧ (zC = 8 ∨ zC = 16 ∨ zC = 34 ∨ zC = 52 ∨ zC = 84) then (2, 90)
        else base
      let afterB : ℕ × ℚ :=
        if coordB = 3 ∧ (zB = 8 ∨ zB = 16 ∨ zB = 34 ∨ zB = 52 ∨ zB = 84) then (2, 90)
        else afterC
      some ((1 / 2 : ℝ) * KCAL_TO_KJ * 1, afterB.1, afterB.2)
    else none
  match branch with
  | none => none
  | some (V, n, phi0) =>
    if isNearZeroR V (2 / 10 ^ 10) then none
    else some ⟨V, n, phi0, Real.cos ((n : ℝ) * DEG_TO_RAD * (phi0 : ℝ))⟩

/-! ## Energy terms (forcefielduff.cpp, `E_Bond` … `E_Electrostatic`)

The geometry routines of `vectormath.cpp` are not among the provided sources;
each is a parameter returning `Option ℝ`, `none` standing for a non-finite
floating-point result.  The torsion angle of the value branch is computed
inline by the source (lines 221–236) and is embedded directly: in exact real
arithmetic `acos(dot/(|abbc|*|bccd|))` fails to be finite exactly when the
norm product vanishes (otherwise Cauchy–Schwarz keeps the argument in
[-1, 1]). -/

/-- The precomputed constants of an `OBFFAngleCalculationUFF` record. -/
structure AngleCalcUFF where
  a : ℕ
  b : ℕ
  c : ℕ
  coord : ℤ
  ka : ℝ
  theta0 : ℝ
  c0 : ℝ
  c1 : ℝ
  c2 : ℝ

/-- The constants of an `OBFFTorsionCalculationUFF` record as `E_Torsion`
reads them. -/
structure TorsionCalcUFF where
  a : ℕ
  b : ℕ
  c : ℕ
  d : ℕ
  V : ℝ
  n : ℕ
  cosNPhi0 : ℝ

/-- The constants of an `OBFFOOPCalculationUFF` record. -/
structure OOPCalcUFF where
  a : ℕ
  b : ℕ
  c : ℕ
  d : ℕ
  koop : ℝ
  c0 : ℝ
  c1 : ℝ
  c2 : ℝ

/-- The constants of an `OBFFBondCalculationUFF` record. -/
structure BondCalcUFF where
  a : ℕ
  b : ℕ
  r0 : ℝ
  kb : ℝ

/-- The constants of an `OBFFVDWCalculationUFF` record (`ka` is the expected
VDW distance `xij`, `kab` the well depth). -/
structure VDWCalcUFF where
  a : ℕ
  b : ℕ
  ka : ℝ
  kab : ℝ

/-- The constants of an `OBFFElectrostaticCalculationUFF` record over ℝ. -/
structure EleCalcUFFR where
  a : ℕ
  b : ℕ
  qq : ℝ

/-- The bend angle `theta` used by `E_Angle` (lines 117–128): the geometric
angle (degrees) converted by `DEG_TO_RAD`, with a non-finite value replaced by
0 before use.  `angleOf` is `VectorAngle` (value branch) applied to the
difference vectors, or `VectorAngleDerivative` (gradient branch) applied to
the three positions; both are abstract here. -/
noncomputable def angleThetaUsed (angleOf : Option ℝ) : ℝ :=
  match angleOf with
  | none => 0
  | some t => t * DEG_TO_RAD

/-- The four-branch angle-bend formula of `E_Angle` (lines 129–146), keyed on
the central atom's coordination code. -/
noncomputable def angleEnergyFormula (rec : AngleCalcUFF) (theta : ℝ) : ℝ :=
  let cosT := Real.cos theta
  if rec.coord = 1 then rec.ka * (1 + cosT)
  else if rec.coord = 2 then (rec.ka / (45 / 10)) * (1 + (1 + cosT) * (4 * cosT))
  else if rec.coord = 4 ∨ rec.coord = 6 then rec.ka * (1 + cosT) * cosT * cosT
  else rec.ka * (rec.c0 + rec.c1 * cosT + rec.c2 * (2 * cosT * cosT - 1))

/-- One record's contribution to `E_Angle`: the energy formula at the used
(fallback-clamped) angle. -/
noncomputable def angleRecordEnergy (vectorAngle : V3 → V3 → Option ℝ)
    (pos : ℕ → V3) (rec : AngleCalcUFF) : ℝ :=
  angleEnergyFormula rec
    (angleThetaUsed (vectorAngle (rsub (pos rec.a) (pos rec.b))
      (rsub (pos rec.c) (pos rec.b))))

open Classical in
/-- The torsion angle `tor` of `E_Torsion`'s value branch (lines 221–236),
computed inline from the positions: `acos` of the normalized dot product of
the two cross products, replaced by the epsilon 1.0e-3 when the dot product is
near zero or the result non-finite, and negated when the dot product is
positive. -/
noncomputable def torsionTorValue (pA pB pC pD : V3) : ℝ :=
  let vab := rsub pA pB
  let vbc := rsub pB pC
  let vcd := rsub pC pD
  let abbc := rcross vab vbc
  let bccd := rcross vbc vcd
  let dotAbbcBccd := rdot abbc bccd
  let denom := rnorm abbc * rnorm bccd
  if denom = 0 then 1 / 1000
  else if isNearZeroR dotAbbcBccd (2 / 10 ^ 10) then 1 / 1000
  else if 0 < dotAbbcBccd then -(Real.arccos (dotAbbcBccd / denom))
  else Real.arccos (dotAbbcBccd / denom)

/-- The torsion angle of `E_Torsion`'s gradient branch (lines 214–219):
`VectorTorsionDerivative`'s result (degrees), replaced by 1.0e-3 when
non-finite, then converted to radians. -/
noncomputable def torsionTorGrad (torsionDeriv : Option ℝ) : ℝ :=
  (match torsionDeriv with
   | none => 1 / 1000
   | some t => t) * DEG_TO_RAD

/-- The torsion energy formula (lines 238–239):
`e = V * (1 - cosNPhi0 * cos(tor * n))`. -/
noncomputable def torsionEnergyFormula (rec : TorsionCalcUFF) (tor : ℝ) : ℝ :=
  rec.V * (1 - rec.cosNPhi0 * Real.cos (tor * (rec.n : ℝ)))

/-- One record's contribution to `E_Torsion` (value branch). -/
noncomputable def torsionRecordEnergy (pos : ℕ → V3) (rec : TorsionCalcUFF) : ℝ :=
  torsionEnergyFormula rec
    (torsionTorValue (pos rec.a) (pos rec.b) (pos rec.c) (pos rec.d))

/-- The out-of-plane angle used by `E_OOP` (lines 301–322): `DEG_TO_RAD` times
`VectorOOP`'s (or `VectorOOPDerivative`'s) result, with a non-finite value
replaced by 0. -/
noncomputable def oopAngleUsed (oopOf : Option ℝ) : ℝ :=
  match oopOf with
  | none => 0
  | some t => DEG_TO_RAD * t

/-- The OOP energy formula (line 324):
`e = koop * (c0 + c1 * cos(angle) + c2 * cos(2*angle))`. -/
noncomputable def oopEnergyFormula (rec : OOPCalcUFF) (angle : ℝ) : ℝ :=
  rec.koop * (rec.c0 + rec.c1 * Real.cos angle + rec.c2 * Real.cos (2 * angle))

/-- One record's contribution to `E_OOP`. -/
noncomputable def oopRecordEnergy (vectorOOP : V3 → V3 → V3 → V3 → Option ℝ)
    (pos : ℕ → V3) (rec : OOPCalcUFF) : ℝ :=
  oopEnergyFormula rec
    (oopAngleUsed (vectorOOP (pos rec.a) (pos rec.b) (pos rec.c) (pos rec.d)))

/-- One record's contribution to `E_Bond` (lines 56–87):
`delta = rab - r0`, `e = kb * delta * delta`. -/
noncomputable def bondRecordEnergy (pos : ℕ → V3) (rec : BondCalcUFF) : ℝ :=
  let rab := rnorm (rsub (pos rec.a) (pos rec.b))
  let delta := rab - rec.r0
  rec.kb * (delta * delta)

open Classical in
/-- One record's contribution to `E_VDW` (lines 360–397): the separation is
clamped below by 1.0e-3 (`IsNearZero(rab, 1.0e-3)`), `term = ka / rab`,
`e = kab * (term^12 - 2 * term^6)`. -/
noncomputable def vdwRecordEnergy (pos : ℕ → V3) (rec : VDWCalcUFF) : ℝ :=
  let rab0 := rnorm (rsub (pos rec.a) (pos rec.b))
  let rab := if isNearZeroR rab0 (1 / 1000) then 1 / 1000 else rab0
  let term := rec.ka / rab
  let term6 := (term * term * term) * (term * term * term)
  let term12 := term6 * term6
  rec.kab * (term12 - 2 * term6)

open Classical in
/-- One record's contribution to `E_Electrostatic` (lines 432–462): the
separation clamped below by 1.0e-3, `e = qq / rab`. -/
noncomputable def eleRecordEnergy (pos : ℕ → V3) (rec : EleCalcUFFR) : ℝ :=
  let rab0 := rnorm (rsub (pos rec.a) (pos rec.b))
  let rab := if isNearZeroR rab0 (1 / 1000) then 1 / 1000 else rab0
  rec.qq / rab

/-! ## The aggregated energy (`OBForceFieldUFF::Energy`, lines 1183–1225) -/

/-- The abstract geometry routines of vectormath.cpp: the value-branch and
gradient-branch angle and OOP computations and the gradient-branch torsion,
each `none` on a non-finite result.  (The value-branch torsion is inline in
the source and embedded concretely above; the distance computations of the
bond/VDW/electrostatic terms agree between branches and are embedded as
`rnorm`.) -/
structure GeometryOracle where
  vectorAngle : V3 → V3 → Option ℝ
  vectorAngleDerivative : V3 → V3 → V3 → Option ℝ
  vectorTorsionDerivative : V3 → V3 → V3 → V3 → Option ℝ
  vectorOOP : V3 → V3 → V3 → V3 → Option ℝ
  vectorOOPDerivative : V3 → V3 → V3 → V3 → Option ℝ

/-- The term-enable mask `m_terms` (BondTerm … EleTerm bits). -/
structure TermMask where
  bond : Bool
  angle : Bool
  torsion : Bool
  oop : Bool
  vdw : Bool
  ele : Bool

/-- The state `OBForceFieldUFF::Energy` reads: positions, the six calculation
lists built by `SetupCalculations` / `SetupElectrostatics`, the cutoff switch
and the precomputed pair bitmasks. -/
structure UFFState where
  positions : ℕ → V3
  bondCalcs : List BondCalcUFF
  angleCalcs : List AngleCalcUFF
  torsionCalcs : List TorsionCalcUFF
  oopCalcs : List OOPCalcUFF
  vdwCalcs : List VDWCalcUFF
  eleCalcs : List EleCalcUFFR
  cutoffEnabled : Bool
  vdwPairBit : ℕ → Bool
  elePairBit : ℕ → Bool

/-- `E_Bond` as a sum over `_bondcalculations` (identical energy in the value
and gradient instantiations). -/
noncomputable def E_Bond (s : UFFState) : ℝ :=
  (s.bondCalcs.map (bondRecordEnergy s.positions)).sum

/-- `E_Angle` as a sum over `_anglecalculations`; the `gradients` flag selects
which geometry routine supplies the angle. -/
noncomputable def E_Angle (orc : GeometryOracle) (s : UFFState)
    (gradients : Bool) : ℝ :=
  (s.angleCalcs.map (fun rec =>
    if gradients then
      angleEnergyFormula rec
        (angleThetaUsed (orc.vectorAngleDerivative (s.positions rec.a)
          (s.positions rec.b) (s.positions rec.c)))
    else
      angleRecordEnergy orc.vectorAngle s.positions rec)).sum

/-- `E_Torsion` as a sum over `_torsioncalculations`. -/
noncomputable def E_Torsion (orc : GeometryOracle) (s : UFFState)
    (gradients : Bool) : ℝ :=
  (s.torsionCalcs.map (fun rec =>
    if gradients then
      torsionEnergyFormula rec
        (torsionTorGrad (orc.vectorTorsionDerivative (s.positions rec.a)
          (s.positions rec.b) (s.positions rec.c) (s.positions rec.d)))
    else
      torsionRecordEnergy s.positions rec)).sum

/-- `E_OOP` as a sum over `_oopcalculations`. -/
noncomputable def E_OOP (orc : GeometryOracle) (s : UFFState)
    (gradients : Bool) : ℝ :=
  (s.oopCalcs.map (fun rec =>
    oopEnergyFormula rec
      (oopAngleUsed ((if gradients then orc.vectorOOPDerivative else orc.vectorOOP)
        (s.positions rec.a) (s.positions rec.b) (s.positions rec.c)
        (s.positions rec.d))))).sum

/-- `E_VDW` as a sum over `_vdwcalculations`, skipping records whose bit is
clear when the cutoff is enabled (lines 360–364). -/
noncomputable def E_VDW (s : UFFState) : ℝ :=
  ((s.vdwCalcs.enum).map (fun ri =>
    if s.cutoffEnabled && !(s.vdwPairBit ri.1) then 0
    else vdwRecordEnergy s.positions ri.2)).sum

/-- `E_Electrostatic` as a sum over `_electrostaticcalculations`, with its
cutoff bitmask (lines 432–436). -/
noncomputable def E_Electrostatic (s : UFFState) : ℝ :=
  ((s.eleCalcs.enum).map (fun ri =>
    if s.cutoffEnabled && !(s.elePairBit ri.1) then 0
    else eleRecordEnergy s.positions ri.2)).sum

/-- `OBForceFieldUFF::Energy(gradients)` (lines 1183–1225): the sum of the
enabled bond, angle, torsion, OOP and VDW terms in both the gradient and the
value branch; the electrostatic term appears only in a comment
(`// energy += E_Electrostatic(gradients);`) and is never added. -/
noncomputable def EnergyUFF (orc : GeometryOracle) (s : UFFState)
    (terms : TermMask) (gradients : Bool) : ℝ :=
  (if terms.bond then E_Bond s else 0) +
  (if terms.angle then E_Angle orc s gradients else 0) +
  (if terms.torsion then E_Torsion orc s gradients else 0) +
  (if terms.oop then E_OOP orc s gradients else 0) +
  (if terms.vdw then E_VDW s else 0)

/-! ## The OpenCL electrostatic term (electro_opencl.cpp) -/

/-- `electroEnergy` (electro_opencl.cpp lines 134–139).  The body computes
`r = ai - aj`, `dist = r.norm() + 0.05` and `e = qi * qj / dist` — and then
falls off the end of a function declared `double` without executing any
`return` statement, so every call yields an unspecified value: embedded as
`none`, the locals kept to mirror the body. -/
noncomputable def electroEnergy (ai aj : V3) (qi qj : ℝ) : Option ℝ :=
  let r := rsub ai aj
  let dist := rnorm r + 5 / 100
  let e := qi * qj / dist
  none

/-- `MMFF94ElectroTermOpenCL::InitSelfPairs` (lines 110–132): over all ordered
atom pairs, `i == j`, bonded and 1-3 pairs go to `m_selfPairs`, 1-4 pairs to
`m_oneFourPairs`. -/
def initSelfPairs (mol : Molecule) : List (ℕ × ℕ) × List (ℕ × ℕ) :=
  ((List.range mol.numAtoms).flatMap (fun i =>
      ((List.range mol.numAtoms).filter (fun j =>
        i = j || isConnected mol i j || isOneThree mol i j)).map (fun j => (i, j))),
   (List.range mol.numAtoms).flatMap (fun i =>
      ((List.range mol.numAtoms).filter (fun j =>
        !(i = j || isConnected mol i j || isOneThree mol i j) &&
          isOneFour mol i j)).map (fun j => (i, j))))

/-- `MMFF94ElectroTermOpenCL::ComputeSelfEnergy` (lines 158–184): starting
from `E = 0.0`, accumulate `electroEnergy` over `m_selfPairs` and a quarter of
it over `m_oneFourPairs`.  Each `E += …` reads `electroEnergy`'s unspecified
result, so the accumulator itself becomes unspecified: `Option.bind`
propagates `none`. -/
noncomputable def computeSelfEnergy (pos : ℕ → V3) (charges : ℕ → ℝ)
    (selfPairs oneFourPairs : List (ℕ × ℕ)) : Option ℝ :=
  (selfPairs.foldlM (fun E p =>
      (electroEnergy (pos p.1) (pos p.2) (charges p.1) (charges p.2)).map
        (fun e => E + e)) (0 : ℝ)).bind
    (fun E0 => oneFourPairs.foldlM (fun E p =>
      (electroEnergy (pos p.1) (pos p.2) (charges p.1) (charges p.2)).map
        (fun e => E + (1 / 4) * e)) E0)

/-- `MMFF94ElectroTermOpenCL::ComputeTotalEnergy` (lines 141–156): the double
loop accumulating `electroEnergy` over every ordered atom pair. -/
noncomputable def computeTotalEnergy (pos : ℕ → V3) (charges : ℕ → ℝ)
    (numAtoms : ℕ) : Option ℝ :=
  (List.range numAtoms).foldlM (fun E i =>
    (List.range numAtoms).foldlM (fun E j =>
      (electroEnergy (pos i) (pos j) (charges i) (charges j)).map
        (fun e => E + e)) E) (0 : ℝ)

/-! ## Concrete fixtures for witnesses and counterexamples -/

/-- An energy function exhibiting the simple line search's tolerance leak: the
starting position has energy 0 and the first trial position (one atom moved by
`direction * 0.2 = (1/5, 0, 0)`) has energy 1/2000, inside the 1.0e-3
convergence tolerance. -/
def eLeak : List Vec3q → ℚ
  | [(x, _, _)] => if x = 1 / 5 then 1 / 2000 else 0
  | _ => 0

/-- The everywhere-zero energy function. -/
def eZero : List Vec3q → ℚ := fun _ => 0

/-- A two-entry slice of the UFF parameter table (UFF.prm rows for C_3 and
H_; only the `_a` keys matter to the lookup claims). -/
def uffParamsDemo : List OBFFParameter :=
  [⟨"C_3", [757 / 1000, 10947 / 100, 3851 / 1000, 105 / 1000, 12173 / 1000,
      1912 / 1000, 2119 / 1000, 6923 / 1000, 5343 / 1000, 5063 / 1000, 759 / 1000], [3]⟩,
   ⟨"H_", [354 / 1000, 180, 2886 / 1000, 44 / 1000, 12, 712 / 1000, 0, 0,
      4528 / 1000, 6945 / 1000, 371 / 1000], [1]⟩]

/-- A two-atom molecule with one bond whose atoms carry the type "Xx", absent
from `uffParamsDemo`. -/
def molXx : Molecule where
  numAtoms := 2
  nbrs := fun i => if i = 0 then [1] else if i = 1 then [0] else []
  atomicNum := fun _ => 6
  typeOf := fun _ => "Xx"
  charge := fun _ => 0

/-- A five-atom molecule whose atom 0 is a whitelisted OOP center (nitrogen,
type N_3) with four bonded neighbours. -/
def molN4 : Molecule where
  numAtoms := 5
  nbrs := fun i =>
    if i = 0 then [1, 2, 3, 4] else if i ≤ 4 then [0] else []
  atomicNum := fun i => if i = 0 then 7 else 1
  typeOf := fun i => if i = 0 then "N_3" else "H_"
  charge := fun _ => 0

/-- A four-atom molecule whose atom 0 is a whitelisted OOP center (carbon,
type C_2) with exactly three bonded neighbours. -/
def molC3 : Molecule where
  numAtoms := 4
  nbrs := fun i =>
    if i = 0 then [1, 2, 3] else if i ≤ 3 then [0] else []
  atomicNum := fun i => if i = 0 then 6 else 1
  typeOf := fun i => if i = 0 then "C_2" else "H_"
  charge := fun _ => 0

/-- A four-atom chain 0-1-2-3 with unit partial charges: its only pair beyond
the 1-2 and 1-3 exclusions is (0, 3). -/
def molChain4 : Molecule where
  numAtoms := 4
  nbrs := fun i =>
    if i = 0 then [1] else if i = 1 then [0, 2]
    else if i = 2 then [1, 3] else if i = 3 then [2] else []
  atomicNum := fun _ => 6
  typeOf := fun _ => "C_3"
  charge := fun _ => 1

/-- The trivial geometry oracle answering `none` everywhere (every geometric
value non-finite). -/
def oracleNone : GeometryOracle where
  vectorAngle := fun _ _ => none
  vectorAngleDerivative := fun _ _ _ => none
  vectorTorsionDerivative := fun _ _ _ _ => none
  vectorOOP := fun _ _ _ _ => none
  vectorOOPDerivative := fun _ _ _ _ => none

/-- The `E_Torsion`-facing record carrying precomputed torsion constants
(atom indices immaterial to the energy formula). -/
def torsionCalcOfParams (p : TorsionParamsUFF) : TorsionCalcUFF :=
  ⟨0, 1, 2, 3, p.V, p.n, p.cosNPhi0⟩

/-! ## Theorems -/

/-- Breaking out of the trial loop on the first iteration: when the trial
energy is within the 1.0e-3 tolerance of the current one, the routine returns
with the trial coordinates in place. -/
theorem lineSearchLoop_break (E : List Vec3q → ℚ) (dir : List Vec3q) (n : ℕ)
    (coords : List Vec3q) (e1 step alpha : ℚ)
    (h : |E (lineSearchStep dir step coords) - e1| < 1 / 1000) :
    lineSearchLoop E dir (n + 1) coords e1 step alpha =
      (lineSearchStep dir step coords, alpha) := by
  simp only [lineSearchLoop]
  rw [if_pos h]

/-- The loop invariant of the simple line search: whenever `e1` is the energy
of the current coordinates, the energy of the coordinates the loop leaves
behind is below `e1 + 1.0e-3` (the tolerance of the convergence break is the
only way the loop can end on an uphill position). -/
theorem lineSearchLoop_energy (E : List Vec3q → ℚ) (dir : List Vec3q) :
    ∀ (fuel : ℕ) (coords : List Vec3q) (e1 step alpha : ℚ),
      e1 = E coords →
      E (lineSearchLoop E dir fuel coords e1 step alpha).1 < e1 + 1 / 1000 := by
  intro fuel
  induction fuel with
  | zero =>
    intro coords e1 step alpha h1
    simp only [lineSearchLoop]
    rw [← h1]
    norm_num
  | succ n ih =>
    intro coords e1 step alpha h1
    simp only [lineSearchLoop]
    by_cases hnear : |E (lineSearchStep dir step coords) - e1| < 1 / 1000
    · rw [if_pos hnear]
      have h2 := (abs_lt.mp hnear).2
      dsimp only
      linarith
    · rw [if_neg hnear]
      by_cases hgt : e1 < E (lineSearchStep dir step coords)
      · rw [if_pos hgt]
        exact ih coords e1 (step * (1 / 10)) alpha h1
      · rw [if_neg hgt]
        by_cases hlt : E (lineSearchStep dir step coords) < e1
        · rw [if_pos hlt]
          have h3 := ih (lineSearchStep dir step coords)
            (E (lineSearchStep dir step coords))
            (if 1 < step * (43 / 20) then 1 else step * (43 / 20)) (alpha + step) rfl
          linarith
        · exfalso
          have heq : E (lineSearchStep dir step coords) = e1 :=
            le_antisymm (not_lt.mp hgt) (not_lt.mp hlt)
          rw [heq] at hnear
          simp only [sub_self, abs_zero] at hnear
          exact hnear (by norm_num)

/-- Taking a zero step reproduces the original coordinates. -/
theorem lineSearchTakeStep_zero :
    ∀ (origCoords dir : List Vec3q), lineSearchTakeStep origCoords dir 0 = origCoords := by
  intro origCoords
  induction origCoords with
  | nil => intro dir; simp [lineSearchTakeStep]
  | cons x xs ih =>
    intro dir
    cases dir with
    | nil => simp [lineSearchTakeStep]
    | cons v vs =>
      have hx : qadd x (qsmul 0 v) = x := by
        obtain ⟨a, b, c⟩ := x
        obtain ⟨d, e, f⟩ := v
        simp [qadd, qsmul]
      simp only [lineSearchTakeStep, List.zipWith_cons_cons, List.length_cons,
        List.drop_succ_cons, List.cons_append, hx]
      exact congrArg (List.cons x) (by simpa [lineSearchTakeStep] using ih vs)

/-- Invariant of the Newton refinement loop: starting from an optimum that is
the energy of its own trial position, it returns an optimum that is the energy
of its trial position and no worse than the incoming one. -/
theorem newtonRefine_invariant (E : List Vec3q → ℚ) (origCoords dir : List Vec3q)
    (maxScl : ℚ) :
    ∀ (fuel : ℕ) (step optStep optE : ℚ),
      optE = E (lineSearchTakeStep origCoords dir optStep) →
      (newtonRefine E origCoords dir maxScl fuel step optStep optE).2 =
        E (lineSearchTakeStep origCoords dir
          (newtonRefine E origCoords dir maxScl fuel step optStep optE).1) ∧
      (newtonRefine E origCoords dir maxScl fuel step optStep optE).2 ≤ optE := by
  intro fuel
  induction fuel with
  | zero =>
    intro step optStep optE h
    simp only [newtonRefine]
    by_cases himp : E (lineSearchTakeStep origCoords dir step) < optE
    · rw [if_pos himp]
      exact ⟨rfl, le_of_lt himp⟩
    · rw [if_neg himp]
      exact ⟨h, le_refl optE⟩
  | succ n ih =>
    intro step optStep optE h
    simp only [newtonRefine]
    by_cases himp : E (lineSearchTakeStep origCoords dir step) < optE
    · rw [if_pos himp]
      by_cases hden : E (lineSearchTakeStep origCoords dir
            (step + step * (1 / 1000) * 2)) -
          2 * E (lineSearchTakeStep origCoords dir (step + step * (1 / 1000))) +
          E (lineSearchTakeStep origCoords dir step) = 0
      · rw [if_pos hden]
        exact ⟨rfl, le_of_lt himp⟩
      · rw [if_neg hden]
        exact ⟨(ih _ _ _ rfl).1, le_trans (ih _ _ _ rfl).2 (le_of_lt himp)⟩
    · rw [if_neg himp]
      by_cases hden : E (lineSearchTakeStep origCoords dir
            (step + step * (1 / 1000) * 2)) -
          2 * E (lineSearchTakeStep origCoords dir (step + step * (1 / 1000))) +
          E (lineSearchTakeStep origCoords dir step) = 0
      · rw [if_pos hden]
        exact ⟨h, le_refl optE⟩
      · rw [if_neg hden]
        exact ⟨(ih _ _ _ h).1, (ih _ _ _ h).2⟩

/-- The closing stage of `Newton2NumLineSearch` never worsens the optimum:
given an optimum that evaluates to its own trial energy and is at most `e0`,
the energy at the finally taken step is at most `e0`. -/
theorem newton2NumFinish_le (E : List Vec3q → ℚ) (origCoords dir : List Vec3q)
    (scale : ℚ) (opt1 : ℚ × ℚ) (e0 : ℚ)
    (h1 : opt1.2 = E (lineSearchTakeStep origCoords dir opt1.1))
    (h2 : opt1.2 ≤ e0) :
    E (newton2NumFinish E origCoords dir scale opt1).1 ≤ e0 := by
  simp only [newton2NumFinish]
  by_cases hz : opt1.1 = 0
  · rw [if_pos hz]
    by_cases hS : E (lineSearchTakeStep origCoords dir ((1 / 1000) * (1 / 40) / scale)) <
        opt1.2
    · rw [if_pos hS]
      dsimp only
      linarith
    · rw [if_neg hS]
      rw [← h1]
      exact h2
  · rw [if_neg hz]
    rw [← h1]
    exact h2

/-- `Newton2NumLineSearch` leaves the positions at an energy no greater than
the incoming energy `e0` of the starting position. -/
theorem newton2NumLineSearch_le (E : List Vec3q → ℚ) (origCoords dir : List Vec3q)
    (e0 : ℚ) (h : e0 = E origCoords) :
    E (newton2NumLineSearch E origCoords dir e0).1 ≤ e0 := by
  have h0 : e0 = E (lineSearchTakeStep origCoords dir 0) := by
    rw [lineSearchTakeStep_zero]
    exact h
  simp only [newton2NumLineSearch]
  apply newton2NumFinish_le
  · exact (newtonRefine_invariant E origCoords dir _ 4 _ 0 e0 h0).1
  · exact (newtonRefine_invariant E origCoords dir _ 4 _ 0 e0 h0).2

/-- Claim C1 (amended): `Newton2NumLineSearch` never leaves the positions at an
energy above the starting energy; the simple `LineSearch`, however, only
guarantees a final energy strictly below the starting energy plus its 1.0e-3
convergence tolerance, because the `IsNear(e_n2, e_n1, 1.0e-3)` break can
accept a trial step that raised the energy by less than the tolerance. -/
theorem c1_line_search_energy_amended (E : List Vec3q → ℚ)
    (coords dir origCoords dir2 : List Vec3q) (e0 : ℚ) (h : e0 = E origCoords) :
    E (lineSearch E coords dir).1 < E coords + 1 / 1000 ∧
    E (newton2NumLineSearch E origCoords dir2 e0).1 ≤ e0 :=
  ⟨lineSearchLoop_energy E dir 10 coords (E coords) (1 / 5) 0 rfl,
   newton2NumLineSearch_le E origCoords dir2 e0 h⟩

/-- Claim C1, witness: the amended theorem applied to the zero energy function
on a one-atom system. -/
theorem c1_line_search_energy_witness :
    (0 : ℚ) = eZero [((0 : ℚ), 0, 0)] ∧
    (eZero (lineSearch eZero [((0 : ℚ), 0, 0)] [((1 : ℚ), 0, 0)]).1 <
        eZero [((0 : ℚ), 0, 0)] + 1 / 1000 ∧
      eZero (newton2NumLineSearch eZero [((0 : ℚ), 0, 0)] [((1 : ℚ), 0, 0)] 0).1 ≤ 0) :=
  ⟨rfl, c1_line_search_energy_amended eZero [((0 : ℚ), 0, 0)] [((1 : ℚ), 0, 0)]
    [((0 : ℚ), 0, 0)] [((1 : ℚ), 0, 0)] 0 rfl⟩

/-- Claim C1, counterexample to the claim as stated: for the energy function
`eLeak` (0 at the start, 1/2000 at the first trial position), the simple
`LineSearch` takes the first trial step (one atom moved by `0.2 * (1,0,0)`),
finds the energy within the 1.0e-3 tolerance, breaks, and returns leaving the
positions at energy 1/2000 — strictly above the starting energy 0. -/
theorem c1_line_search_counterexample :
    eLeak (lineSearch eLeak [((0 : ℚ), 0, 0)] [((1 : ℚ), 0, 0)]).1 >
      eLeak [((0 : ℚ), 0, 0)] := by
  have hstep : lineSearchStep [((1 : ℚ), 0, 0)] (1 / 5) [((0 : ℚ), 0, 0)] =
      [((1 : ℚ) / 5, 0, 0)] := by
    norm_num [lineSearchStep, sqNormQ, qdot, qsmul, qadd]
  have hE0 : eLeak [((0 : ℚ), 0, 0)] = 0 := by norm_num [eLeak]
  have hE1 : eLeak [((1 : ℚ) / 5, 0, 0)] = 1 / 2000 := by norm_num [eLeak]
  unfold lineSearch
  rw [show (10 : ℕ) = 9 + 1 by norm_num,
    lineSearchLoop_break eLeak [((1 : ℚ), 0, 0)] 9 [((0 : ℚ), 0, 0)] _ (1 / 5) 0
      (by rw [hstep, hE1, hE0]; rw [abs_lt]; constructor <;> norm_num)]
  dsimp only
  rw [hstep, hE1, hE0]
  norm_num

/-- Claim C3, code-bug evidence: in the simple `LineSearch`, the per-atom
trial displacement for direction `(5/2, 0, 0)` at the first trial step 0.2 is
`(1/2, 0, 0)`, of squared norm 1/4 — above the claimed (and comment-stated)
trust radius 0.3, whose square is 9/100 — yet it is applied without
renormalization, because the source compares the squared norm against
`trustRadius2 = 0.9` instead of `0.3² = 0.09`. -/
theorem c3_trust_radius_not_enforced :
    lineSearchStep [((5 : ℚ) / 2, 0, 0)] (1 / 5) [((0 : ℚ), 0, 0)] =
      [((1 : ℚ) / 2, 0, 0)] ∧
    ¬ sqNormQ ((1 : ℚ) / 2, 0, 0) ≤ (3 / 10) ^ 2 := by
  constructor
  · norm_num [lineSearchStep, sqNormQ, qdot, qsmul, qadd]
  · norm_num [sqNormQ, qdot]

/-- Pointwise description of `List.zipWith` through `getD`, inside both
lists' bounds. -/
theorem zipWith_getD {α : Type} (f : α → α → α) :
    ∀ (l1 l2 : List α) (i : ℕ) (d : α), i < l1.length → i < l2.length →
      (List.zipWith f l1 l2).getD i d = f (l1.getD i d) (l2.getD i d) := by
  intro l1
  induction l1 with
  | nil => intro l2 i d h1 _; simp at h1
  | cons x xs ih =>
    intro l2 i d h1 h2
    cases l2 with
    | nil => simp at h2
    | cons y ys =>
      cases i with
      | zero => simp
      | succ n =>
        simpa using ih ys n d (by simpa using h1) (by simpa using h2)

/-- Claim C8: the direction array formed by `ConjugateGradientsTakeNSteps` is,
per atom, the raw current gradient when the cumulative step count is a
multiple of the atom count, and otherwise the current gradient plus
`beta * grad1` with the Fletcher–Reeves coefficient
`beta = (grad2·grad2)/(grad1·grad1)` taken from the stored array `d->grad1`. -/
theorem c8_cg_direction (cstep numAtoms : ℕ) (g prev : List Vec3q) (i : ℕ)
    (hg : i < g.length) (hp : i < prev.length) :
    (cgDirection cstep numAtoms g prev).getD i (0, 0, 0) =
      if cstep % numAtoms = 0 then g.getD i (0, 0, 0)
      else
        qadd (g.getD i (0, 0, 0))
          (qsmul (qdot (g.getD i (0, 0, 0)) (g.getD i (0, 0, 0)) /
              qdot (prev.getD i (0, 0, 0)) (prev.getD i (0, 0, 0)))
            (prev.getD i (0, 0, 0))) := by
  unfold cgDirection
  rw [zipWith_getD _ g prev i _ hg hp]
  by_cases h : cstep % numAtoms = 0 <;> simp [h]

/-- Claim C8, witness: step 1 of a 2-atom system (1 % 2 ≠ 0, so the
Fletcher–Reeves update applies: beta = 1/4 and the direction becomes
(1,0,0) + (1/4)·(2,0,0) = (3/2,0,0)). -/
theorem c8_cg_direction_witness :
    (cgDirection 1 2 [((1 : ℚ), 0, 0)] [((2 : ℚ), 0, 0)]).getD 0 (0, 0, 0) =
      ((3 : ℚ) / 2, 0, 0) := by
  rw [c8_cg_direction 1 2 [((1 : ℚ), 0, 0)] [((2 : ℚ), 0, 0)] 0 (by norm_num)
    (by norm_num)]
  norm_num [qadd, qsmul, qdot]

/-- `setupCalculationsStatus` can only be undefined behaviour (`none`) or the
final `return true`: the source has no `return false`. -/
theorem setupStatusOf_cases (lookups : Option Unit) :
    setupStatusOf lookups = none ∨ setupStatusOf lookups = some true := by
  cases lookups with
  | none => left; rfl
  | some u => right; rfl

theorem setupCalculationsStatus_cases (mol : Molecule)
    (parameter : List OBFFParameter) :
    setupCalculationsStatus mol parameter = none ∨
    setupCalculationsStatus mol parameter = some true := by
  unfold setupCalculationsStatus
  exact setupStatusOf_cases _

/-- Claim C2, code-bug evidence: for the molecule with one bond between atoms
typed "Xx" and a table without that type, `GetParameterUFF` reports the
missing parameter as a null pointer (`none`) and `SetupCalculations` runs into
undefined behaviour (`none`) instead of returning `false`; in general it never
returns `false` on any input. -/
theorem c2_setup_missing_parameter :
    getParameterUFF "Xx" uffParamsDemo = none ∧
    setupCalculationsStatus molXx uffParamsDemo = none ∧
    ∀ (mol : Molecule) (parameter : List OBFFParameter),
      setupCalculationsStatus mol parameter = none ∨
      setupCalculationsStatus mol parameter = some true :=
  ⟨rfl, rfl, setupCalculationsStatus_cases⟩

/-- After the first two neighbours are collected, every further neighbour
overwrites `d`, so the fold ends with the last one. -/
theorem pickACD_fold_full (a c : ℕ) :
    ∀ (l : List ℕ) (x : ℕ) (d0 : Option ℕ),
      List.foldl pickACDStep (some a, some c, d0) (x :: l) =
        (some a, some c, some (l.getLastD x)) := by
  intro l
  induction l with
  | nil => intro x d0; rfl
  | cons y ys ih =>
    intro x d0
    rw [List.foldl_cons]
    show List.foldl pickACDStep (some a, some c, some x) (y :: ys) = _
    rw [ih y (some x), List.getLastD_cons]

/-- A center with at least three neighbours yields `a` = first, `c` = second,
`d` = last. -/
theorem pickACD_three_or_more (x y z : ℕ) (l : List ℕ) :
    pickACD (x :: y :: z :: l) = (some x, some y, some (l.getLastD z)) := by
  unfold pickACD
  rw [List.foldl_cons, List.foldl_cons]
  exact pickACD_fold_full x y l z none

/-- Claim C4 (amended): an OOP-eligible center with fewer than three bonded
neighbours contributes no OOP records, and one with three or more — not
exactly three — contributes exactly three (the wing choices being drawn from
its first, second and last neighbours). -/
theorem c4_oop_record_count (mol : Molecule) (b : ℕ)
    (helig : oopEligible mol b = true) :
    (oopQuadsForCenter mol b).length =
      if 3 ≤ (mol.nbrs b).length then 3 else 0 := by
  unfold oopQuadsForCenter
  rw [if_pos helig]
  cases hn : mol.nbrs b with
  | nil => simp [pickACD]
  | cons a t =>
    cases t with
    | nil => simp [pickACD, pickACDStep]
    | cons c t2 =>
      cases t2 with
      | nil => simp [pickACD, pickACDStep]
      | cons x l =>
        rw [pickACD_three_or_more]
        simp

/-- Claim C4, counterexample to the claim as stated: the nitrogen center of
`molN4` passes the whitelist and has four (not exactly three) neighbours, yet
the setup generates three OOP records for it rather than none. -/
theorem c4_oop_counterexample :
    (molN4.nbrs 0).length = 4 ∧ (oopCalculations molN4).length = 3 := by
  constructor
  · rfl
  · rfl

/-- Claim C4, witness: the three-neighbour carbon center of `molC3`. -/
theorem c4_oop_record_count_witness :
    oopEligible molC3 0 = true ∧
    (oopQuadsForCenter molC3 0).length =
      if 3 ≤ (molC3.nbrs 0).length then 3 else 0 :=
  ⟨rfl, c4_oop_record_count molC3 0 rfl⟩

/-- Claim C5: no directly bonded (1-2) pair and no 1-3 pair survives into the
van der Waals calculation list of `SetupCalculations` or the electrostatic
calculation list of `SetupElectrostatics`. -/
theorem c5_nonbonded_exclusions (mol : Molecule) (p : ℕ × ℕ) (r : EleCalcUFF) :
    (p ∈ vdwPairs mol →
      isConnected mol p.1 p.2 = false ∧ isOneThree mol p.1 p.2 = false) ∧
    (r ∈ setupElectrostatics mol →
      isConnected mol r.a r.b = false ∧ isOneThree mol r.a r.b = false) := by
  constructor
  · intro hv
    have h := (List.mem_filter.mp hv).2
    simp only [Bool.and_eq_true, Bool.not_eq_true'] at h
    exact h
  · intro he
    obtain ⟨q, _, hfq⟩ := List.mem_filterMap.mp he
    by_cases h1 : (!(isConnected mol q.1 q.2) && !(isOneThree mol q.1 q.2)) = true
    · rw [if_pos h1] at hfq
      by_cases h2 : KCAL_TO_KJq * (3320637 / 10000) * mol.charge q.1 *
          mol.charge q.2 ≠ 0
      · rw [if_pos h2] at hfq
        have hr := Option.some.inj hfq
        subst hr
        simp only [Bool.and_eq_true, Bool.not_eq_true'] at h1
        exact h1
      · rw [if_neg h2] at hfq
        simp at hfq
    · rw [if_neg h1] at hfq
      simp at hfq

/-- The (0, 3) electrostatic record of the four-atom chain. -/
theorem eleRecordChain4_mem :
    (⟨0, 3, KCAL_TO_KJq * (3320637 / 10000) * 1 * 1⟩ : EleCalcUFF) ∈
      setupElectrostatics molChain4 := by
  apply List.mem_filterMap.mpr
  refine ⟨(0, 3), by decide, ?_⟩
  rw [if_pos (by decide), if_pos (by norm_num [KCAL_TO_KJq, molChain4])]
  rfl

/-- Claim C5, witness: the chain 0-1-2-3, whose van der Waals list and
electrostatic list retain exactly the pair (0, 3). -/
theorem c5_nonbonded_exclusions_witness :
    ((0, 3) ∈ vdwPairs molChain4) ∧
    (⟨0, 3, KCAL_TO_KJq * (3320637 / 10000) * 1 * 1⟩ : EleCalcUFF) ∈
      setupElectrostatics molChain4 ∧
    (isConnected molChain4 0 3 = false ∧ isOneThree molChain4 0 3 = false) :=
  ⟨by decide, eleRecordChain4_mem,
   (c5_nonbonded_exclusions molChain4 (0, 3)
     ⟨0, 3, KCAL_TO_KJq * (3320637 / 10000) * 1 * 1⟩).1 (by decide)⟩

/-- Claim C6: a torsion between two sp3 centers, neither hitting the group-6
special case, is built with phi0 = 60 degrees and periodicity n = 3; with
identical barrier parameters v on both centers the torsion constant is
`V = 0.5 * KCAL_TO_KJ * v`, the energy at a dihedral angle of 60 degrees is 0
and the energy at 0 degrees is `2V`. -/
theorem c6_sp3_torsion (zB zC : ℕ) (v uB uC tt : ℚ)
    (hB8 : zB ≠ 8) (hB6 : ¬(zB = 16 ∨ zB = 34 ∨ zB = 52 ∨ zB = 84))
    (hC8 : zC ≠ 8) (hC6 : ¬(zC = 16 ∨ zC = 34 ∨ zC = 52 ∨ zC = 84))
    (hv : 0 ≤ v)
    (hV : ¬ isNearZeroR ((1 / 2 : ℝ) * KCAL_TO_KJ * (v : ℝ)) (2 / 10 ^ 10)) :
    ∃ p : TorsionParamsUFF,
      uffTorsionParams 3 3 zB zC v v uB uC tt = some p ∧
      p.phi0 = 60 ∧ p.n = 3 ∧ p.V = (1 / 2 : ℝ) * KCAL_TO_KJ * (v : ℝ) ∧
      torsionEnergyFormula (torsionCalcOfParams p) (60 * DEG_TO_RAD) = 0 ∧
      torsionEnergyFormula (torsionCalcOfParams p) 0 = 2 * p.V := by
  have hsq : Real.sqrt ((v : ℝ) * (v : ℝ)) = (v : ℝ) :=
    Real.sqrt_mul_self (by exact_mod_cast hv)
  have hphi : ((3 : ℕ) : ℝ) * DEG_TO_RAD * ((60 : ℚ) : ℝ) = Real.pi := by
    rw [DEG_TO_RAD]
    push_cast
    ring
  have htor : 60 * DEG_TO_RAD * ((3 : ℕ) : ℝ) = Real.pi := by
    rw [DEG_TO_RAD]
    push_cast
    ring
  refine ⟨⟨(1 / 2 : ℝ) * KCAL_TO_KJ * (v : ℝ), 3, 60,
    Real.cos (((3 : ℕ) : ℝ) * DEG_TO_RAD * ((60 : ℚ) : ℝ))⟩, ?_, rfl, rfl, rfl, ?_, ?_⟩
  · simp only [uffTorsionParams, sp3Group6Override,
      if_pos (⟨rfl, rfl⟩ : (3 : ℤ) = 3 ∧ (3 : ℤ) = 3),
      if_neg hB8, if_neg hB6, if_neg hC8, if_neg hC6]
    rw [hsq]
    simp only [and_self, if_true]
    rw [if_neg hV]
  · simp only [torsionEnergyFormula, torsionCalcOfParams]
    rw [hphi, htor, Real.cos_pi]
    ring
  · simp only [torsionEnergyFormula, torsionCalcOfParams]
    rw [hphi, Real.cos_pi, zero_mul, Real.cos_zero]
    ring

/-- Claim C6, witness: two sp3 carbons (atomic number 6) with barrier
parameter 1. -/
theorem c6_sp3_torsion_witness :
    (0 : ℚ) ≤ 1 ∧
    ∃ p : TorsionParamsUFF,
      uffTorsionParams 3 3 6 6 1 1 0 0 1 = some p ∧
      p.phi0 = 60 ∧ p.n = 3 ∧ p.V = (1 / 2 : ℝ) * KCAL_TO_KJ * ((1 : ℚ) : ℝ) ∧
      torsionEnergyFormula (torsionCalcOfParams p) (60 * DEG_TO_RAD) = 0 ∧
      torsionEnergyFormula (torsionCalcOfParams p) 0 = 2 * p.V :=
  ⟨by norm_num,
   c6_sp3_torsion 6 6 1 0 0 1 (by decide) (by decide) (by decide) (by decide)
     (by norm_num)
     (by
       unfold isNearZeroR
       rw [abs_of_pos (by norm_num [KCAL_TO_KJ, KCAL_TO_KJq])]
       norm_num [KCAL_TO_KJ, KCAL_TO_KJq])⟩

/-- Claim C7: in every energy-term evaluation, a non-finite geometric value is
replaced before use by its fallback — 0 for the bend angle (both branches of
`E_Angle`), 0 for the out-of-plane angle (both branches of `E_OOP`), and the
epsilon 1.0e-3 for the torsion angle (the value branch when the cross-product
norms annihilate, i.e. the inline `acos` is non-finite, and the gradient
branch when `VectorTorsionDerivative` is non-finite, there assigned before the
degree-to-radian conversion); no non-finite value reaches the energy
formulas. -/
theorem c7_nonfinite_fallbacks (orc : GeometryOracle) (pa pb pc pd : V3)
    (hA : orc.vectorAngle (rsub pa pb) (rsub pc pb) = none)
    (hAd : orc.vectorAngleDerivative pa pb pc = none)
    (hT : rnorm (rcross (rsub pa pb) (rsub pb pc)) *
        rnorm (rcross (rsub pb pc) (rsub pc pd)) = 0)
    (hTd : orc.vectorTorsionDerivative pa pb pc pd = none)
    (hO : orc.vectorOOP pa pb pc pd = none)
    (hOd : orc.vectorOOPDerivative pa pb pc pd = none) :
    angleThetaUsed (orc.vectorAngle (rsub pa pb) (rsub pc pb)) = 0 ∧
    angleThetaUsed (orc.vectorAngleDerivative pa pb pc) = 0 ∧
    torsionTorValue pa pb pc pd = 1 / 1000 ∧
    torsionTorGrad (orc.vectorTorsionDerivative pa pb pc pd) =
      (1 / 1000) * DEG_TO_RAD ∧
    oopAngleUsed (orc.vectorOOP pa pb pc pd) = 0 ∧
    oopAngleUsed (orc.vectorOOPDerivative pa pb pc pd) = 0 := by
  refine ⟨?_, ?_, ?_, ?_, ?_, ?_⟩
  · rw [hA]; rfl
  · rw [hAd]; rfl
  · unfold torsionTorValue
    rw [if_pos hT]
  · unfold torsionTorGrad
    rw [hTd]
  · rw [hO]; rfl
  · rw [hOd]; rfl

/-- Claim C7, witness: four coincident atoms (all cross products vanish) under
the everywhere-non-finite geometry oracle. -/
theorem c7_nonfinite_fallbacks_witness :
    oracleNone.vectorAngle (rsub (0, 0, 0) (0, 0, 0)) (rsub (0, 0, 0) (0, 0, 0)) =
      none ∧
    (angleThetaUsed (oracleNone.vectorAngle (rsub (0, 0, 0) (0, 0, 0))
        (rsub (0, 0, 0) (0, 0, 0))) = 0 ∧
      angleThetaUsed (oracleNone.vectorAngleDerivative (0, 0, 0) (0, 0, 0)
        (0, 0, 0)) = 0 ∧
      torsionTorValue (0, 0, 0) (0, 0, 0) (0, 0, 0) (0, 0, 0) = 1 / 1000 ∧
      torsionTorGrad (oracleNone.vectorTorsionDerivative (0, 0, 0) (0, 0, 0)
        (0, 0, 0) (0, 0, 0)) = (1 / 1000) * DEG_TO_RAD ∧
      oopAngleUsed (oracleNone.vectorOOP (0, 0, 0) (0, 0, 0) (0, 0, 0)
        (0, 0, 0)) = 0 ∧
      oopAngleUsed (oracleNone.vectorOOPDerivative (0, 0, 0) (0, 0, 0) (0, 0, 0)
        (0, 0, 0)) = 0) :=
  ⟨rfl,
   c7_nonfinite_fallbacks oracleNone (0, 0, 0) (0, 0, 0) (0, 0, 0) (0, 0, 0)
     rfl rfl
     (by norm_num [rsub, rcross, rnorm, rdot])
     rfl rfl rfl⟩

/-- Claim C9: the total energy of `OBForceFieldUFF::Energy` is unchanged by
any replacement of the electrostatic calculation list and by the
electrostatic term-enable bit, in both the value and the gradient branch: the
sum covers only the enabled bond, angle, torsion, OOP and VDW terms. -/
theorem c9_energy_ignores_electrostatics (orc : GeometryOracle) (s : UFFState)
    (terms : TermMask) (gradients : Bool) (l : List EleCalcUFFR) (e : Bool) :
    EnergyUFF orc { s with eleCalcs := l } terms gradients =
      EnergyUFF orc s terms gradients ∧
    EnergyUFF orc s { terms with ele := e } gradients =
      EnergyUFF orc s terms gradients ∧
    EnergyUFF orc s terms gradients =
      (if terms.bond then E_Bond s else 0) +
      (if terms.angle then E_Angle orc s gradients else 0) +
      (if terms.torsion then E_Torsion orc s gradients else 0) +
      (if terms.oop then E_OOP orc s gradients else 0) +
      (if terms.vdw then E_VDW s else 0) :=
  ⟨rfl, rfl, rfl⟩

/-- Claim C10: `electroEnergy` yields an unspecified value on every call (its
body never executes a `return`), and therefore every energy `ComputeSelfEnergy`
or `ComputeTotalEnergy` accumulates from it is unspecified as well (here: the
`none` of the first accumulated pair propagates to the whole sum). -/
theorem c10_electro_energy_unspecified (pos : ℕ → V3) (charges : ℕ → ℝ)
    (p : ℕ × ℕ) (selfRest oneFourPairs : List (ℕ × ℕ)) (n : ℕ) :
    (∀ (ai aj : V3) (qi qj : ℝ), electroEnergy ai aj qi qj = none) ∧
    computeSelfEnergy pos charges (p :: selfRest) oneFourPairs = none ∧
    computeTotalEnergy pos charges (n + 1) = none := by
  refine ⟨fun _ _ _ _ => rfl, ?_, ?_⟩
  · simp [computeSelfEnergy, electroEnergy]
  · simp [computeTotalEnergy, electroEnergy, List.range_succ_eq_map]
